import Mathlib

/-!
Verification development for the tuntun SSH tunnel minder (src/main.go).

The Go program is shallowly embedded: each Go function of interest becomes a
pure Lean function.  Go durations (`time.Duration`, int64 nanoseconds) are
modelled as `Nat` nanoseconds.  External effects (DNS lookup, file reading,
SSH key parsing, dialing, listening, the keepalive response and its timer
race) are supplied as explicit environment records, so that the embedded
functions are deterministic in the environment.  The atomic status cell
(`Connection.status` / `setStatus`) is modelled by the ordered list of status
strings a run emits; the cell's current value is the last element of that
list.  Goroutine spawns (`go ...`) are modelled by recording the scheduled
action (e.g. the list of scheduled closes, the list of started forwarders).
-/

namespace TunTun

/-- One second in nanoseconds (`time.Second`). -/
def second : Nat := 1000000000

/-- Index of the first occurrence of a character in a list, if any
(Go `IndexByte`, on the character level). -/
def indexOfChar (l : List Char) (c : Char) : Option Nat :=
  match l with
  | [] => none
  | x :: xs => if x = c then some 0 else (indexOfChar xs c).map (· + 1)

/-- Index of the last occurrence of a character in a list, if any
(Go `LastIndexByte`, on the character level). -/
def lastIndexOfChar (l : List Char) (c : Char) : Option Nat :=
  match l with
  | [] => none
  | x :: xs =>
    match lastIndexOfChar xs c with
    | some i => some (i + 1)
    | none => if x = c then some 0 else none

/-- Rendering of Go's `net.AddrError` via its `Error()` method, which is how
the error text reaches tuntun's validation messages. -/
def addrError (addr why : String) : String :=
  "address " ++ addr ++ ": " ++ why

/-- Embedding of Go's `net.SplitHostPort`.  Returns the host and port parts,
or the rendered `AddrError`.  (Go works on bytes; configuration addresses are
ASCII, where bytes and characters coincide.) -/
def splitHostPort (hostport : String) : Except String (String × String) :=
  let cs := hostport.toList
  match lastIndexOfChar cs ':' with
  | none => .error (addrError hostport "missing port in address")
  | some i =>
    if cs.head? = some '[' then
      match indexOfChar cs ']' with
      | none => .error (addrError hostport "missing \x27]\x27 in address")
      | some e =>
        if e + 1 = cs.length then
          .error (addrError hostport "missing port in address")
        else if e + 1 = i then
          if (cs.drop 1).contains '[' then
            .error (addrError hostport "unexpected \x27[\x27 in address")
          else if (cs.drop (e + 1)).contains ']' then
            .error (addrError hostport "unexpected \x27]\x27 in address")
          else .ok (String.mk ((cs.take e).drop 1), String.mk (cs.drop (i + 1)))
        else if cs.get? (e + 1) = some ':' then
          .error (addrError hostport "too many colons in address")
        else .error (addrError hostport "missing port in address")
    else
      if (cs.take i).contains ':' then
        .error (addrError hostport "too many colons in address")
      else if cs.contains '[' then
        .error (addrError hostport "unexpected \x27[\x27 in address")
      else if cs.contains ']' then
        .error (addrError hostport "unexpected \x27]\x27 in address")
      else .ok (String.mk (cs.take i), String.mk (cs.drop (i + 1)))

/-- Embedding of Go's `net.JoinHostPort`: brackets the host when it contains
a colon (assumed IPv6 literal). -/
def joinHostPort (host port : String) : String :=
  if host.toList.contains ':' then "[" ++ host ++ "]:" ++ port
  else host ++ ":" ++ port

/-- Left-pad a digit string with zeros to the given width (helper for the
fractional part of a duration). -/
def padLeftZeros (s : String) (n : Nat) : String :=
  String.mk (List.replicate (n - s.length) '0') ++ s

/-- Fractional part of a duration as printed by Go's `Duration.String`:
`frac` over `10^digits`, with trailing zeros stripped, preceded by a dot;
empty when the fraction is zero. -/
def fracStr (frac digits : Nat) : String :=
  let s := padLeftZeros (toString frac) digits
  let t := String.mk ((s.toList.reverse.dropWhile (· = '0')).reverse)
  if t = "" then "" else "." ++ t

/-- Embedding of Go's `time.Duration.String` for nonnegative durations
(`Nat` nanoseconds), e.g. `2s`, `1m0s`, `1.5ms`. -/
def durString (d : Nat) : String :=
  if d = 0 then "0s"
  else if d < 1000 then toString d ++ "ns"
  else if d < 1000000 then toString (d / 1000) ++ fracStr (d % 1000) 3 ++ "µs"
  else if d < 1000000000 then
    toString (d / 1000000) ++ fracStr (d % 1000000) 6 ++ "ms"
  else
    let secs := d / 1000000000
    let sStr := toString (secs % 60) ++ fracStr (d % 1000000000) 9 ++ "s"
    let mins := secs / 60
    if mins = 0 then sStr
    else
      let mStr := toString (mins % 60) ++ "m" ++ sStr
      let hrs := mins / 60
      if hrs = 0 then mStr else toString hrs ++ "h" ++ mStr

/-- An `ssh.AuthMethod` as built by `validate`: either a parsed public key
signer or a password.  The signer itself is opaque (a string token from the
key-parsing environment). -/
inductive AuthMethod where
  | publicKeys (signer : String)
  | password (pw : String)
deriving Repr, DecidableEq

/-- Tunnel direction (`TunnelDirection` in main.go). -/
inductive TunnelDirection where
  | UnspecifiedDirection
  | ExposedOnServer
  | ExposedLocally
deriving Repr, DecidableEq

/-- An `Endpoint`: a side tag ("Local"/"Remote") and an address string. -/
structure Endpoint where
  Side : String
  Address : String
deriving Repr, DecidableEq

/-- A `Tunnel`: two endpoints plus the internal derived direction. -/
structure Tunnel where
  From : Endpoint
  To : Endpoint
  direction : TunnelDirection := .UnspecifiedDirection
deriving Repr, DecidableEq

/-- A `Connection` record.  `KeepAliveInterval`/`MaxReconnectDelay` are the
unwrapped `Duration` values in nanoseconds (the `Duration` JSON wrapper is
not part of src; its `Unwrap` is the identity on the stored value).  The
internal fields mirror main.go: `auth` is the credential built by `validate`,
`conn` the active `ssh.Client` (an opaque id), `listeners` the open listener
handles (opaque ids), `reconnectDelay` the current backoff delay.  The atomic
`status` cell is modelled by emitted status lists, not stored here. -/
structure Connection where
  Name : String
  Host : String
  Username : String
  KeyFile : String
  Key : String
  Password : String
  Fingerprint : String
  KeepAliveInterval : Nat
  MaxReconnectDelay : Nat
  Tunnels : List Tunnel
  auth : Option AuthMethod := none
  conn : Option Nat := none
  listeners : List Nat := []
  reconnectDelay : Nat := 0
deriving Repr, DecidableEq

/-- Environment for `validate`: DNS resolution (`net.LookupHost`), key-file
reading (`os.ReadFile`) and SSH private-key parsing
(`ssh.ParsePrivateKey` / `ssh.ParsePrivateKeyWithPassphrase`), all external
to the repository. -/
structure Env where
  lookupHost : String → List String
  readFile : String → Except String String
  parsePrivateKey : String → Except String String
  parsePrivateKeyWithPassphrase : String → String → Except String String

/-- Per-tunnel endpoint checks and direction derivation: the body of the
`for _, t := range c.Tunnels` loop of `validate` (main.go lines 215-253).
Returns the (possibly mutated) tunnel and the issue string ("" = no issue).
Note the direction is assigned before the address checks, so a tunnel keeps
its derived direction even when a later address check fails. -/
def checkAddrs (name : String) (t : Tunnel) : Tunnel × String :=
  match splitHostPort t.From.Address with
  | .error e =>
    (t, "for connection " ++ name ++ ", tunnel From address is invalid: " ++ e)
  | .ok fp =>
    if fp.2 = "" then
      (t, "for connection " ++ name ++ ", tunnel From address is missing port number")
    else
      match splitHostPort t.To.Address with
      | .error e =>
        (t, "for connection " ++ name ++ ", tunnel To address is invalid: " ++ e)
      | .ok tp =>
        if tp.2 = "" then
          (t, "for connection " ++ name ++ ", tunnel To address is missing port number")
        else (t, "")

/-- One tunnel's validation: emptiness checks, direction derivation, then
address checks (main.go lines 216-252). -/
def validateTunnel (name : String) (t : Tunnel) : Tunnel × String :=
  if t.From.Side = "" then (t, name ++ ".From.Side is empty")
  else if t.From.Address = "" then (t, name ++ ".From.Address is empty")
  else if t.To.Side = "" then (t, name ++ ".To.Side is empty")
  else if t.To.Address = "" then (t, name ++ ".To.Address is empty")
  else if t.From.Side = "Local" ∧ t.To.Side = "Remote" then
    checkAddrs name { t with direction := .ExposedLocally }
  else if t.From.Side = "Remote" ∧ t.To.Side = "Local" then
    checkAddrs name { t with direction := .ExposedOnServer }
  else
    (t, "for connection " ++ name ++ ", tunnel should be Local->Remote or Remote->Local")

/-- The tunnel loop of `validate`: validates tunnels in order, stopping at
the first issue; mutated tunnels (derived directions) are kept. -/
def validateTunnels (name : String) : List Tunnel → List Tunnel × String
  | [] => ([], "")
  | t :: ts =>
    let r := validateTunnel name t
    if r.2 ≠ "" then (r.1 :: ts, r.2)
    else
      let rs := validateTunnels name ts
      (r.1 :: rs.1, rs.2)

/-- Host-parse step of `validate` (main.go lines 169-175): on a parse
failure the whole host field is taken as the host and the field is rewritten
with the default SSH port 22 appended.  Returns (new value of the `Host`
field, host string passed to `net.LookupHost`). -/
def resolveHost (hostField : String) : String × String :=
  match splitHostPort hostField with
  | .ok hp => (hostField, hp.1)
  | .error _ => (joinHostPort hostField "22", hostField)

/-- Tail of `validate` after a successful key parse or with no key material
(main.go lines 210-253): password fallback for `auth`, then tunnel checks. -/
def finishAuth (c : Connection) : Connection × String :=
  let c1 := { c with auth :=
    if c.auth = none ∧ c.Password ≠ "" then some (.password c.Password) else c.auth }
  let rs := validateTunnels c1.Name c1.Tunnels
  ({ c1 with Tunnels := rs.1 }, rs.2)

/-- Key-parsing step of `validate` (main.go lines 194-207): with a password
present the key is parsed with that password as its passphrase, otherwise
without; a successful parse installs public-key auth. -/
def parseKeyAuth (env : Env) (c : Connection) (key : String) : Connection × String :=
  let parsed :=
    if c.Password = "" then env.parsePrivateKey key
    else env.parsePrivateKeyWithPassphrase key c.Password
  match parsed with
  | .error e => (c, "failed to parse key for connection " ++ c.Name ++ ": " ++ e)
  | .ok signer => finishAuth { c with auth := some (.publicKeys signer) }

/-- Credential steps of `validate` (main.go lines 181-211): read the key
file if configured, else use the inline key, else fall through with no key
material. -/
def validateAuth (env : Env) (c : Connection) : Connection × String :=
  if c.KeyFile ≠ "" then
    match env.readFile c.KeyFile with
    | .error e =>
      (c, "failed to read key file " ++ c.KeyFile ++ " for connection " ++ c.Name ++ ": " ++ e)
    | .ok key => parseKeyAuth env c key
  else if c.Key ≠ "" then parseKeyAuth env c c.Key
  else finishAuth c

/-- Embedding of `Connection.validate` (main.go lines 144-256).  Returns the
mutated connection and the issue string, "" meaning the record is valid. -/
def validate (env : Env) (c : Connection) : Connection × String :=
  if c.Name = "" then (c, "connection has no name")
  else if c.Host = "" then (c, "host is empty for connection " ++ c.Name)
  else if c.Username = "" then (c, "username is empty for connection " ++ c.Name)
  else if c.Tunnels = [] then (c, "no tunnels defined for connection " ++ c.Name)
  else
    let c1 := { c with
      KeepAliveInterval :=
        if c.KeepAliveInterval = 0 then 60 * second else c.KeepAliveInterval,
      MaxReconnectDelay :=
        if c.MaxReconnectDelay = 0 then 60 * second else c.MaxReconnectDelay }
    if c1.KeyFile ≠ "" ∧ c1.Key ≠ "" then
      (c1, "connection " ++ c1.Name ++ " has both KeyFile and Key set")
    else
      let rh := resolveHost c1.Host
      let c2 := { c1 with Host := rh.1 }
      if env.lookupHost rh.2 = [] then
        (c2, "failed to resolve host " ++ c2.Host ++ " for connection " ++ c2.Name)
      else validateAuth env c2

/-- The dial capability handed to a spawned `Forward` goroutine: either
`c.conn.Dial` (dialing out through the SSH client) or plain `net.Dial`. -/
inductive Dialer where
  | sshConn (client : Nat)
  | localNet
deriving Repr, DecidableEq

/-- A `go Forward(...)` spawn recorded during `connect`: the listener it
accepts from, the target address, and the dial capability. -/
structure ForwardSpawn where
  listener : Nat
  target : String
  dialer : Dialer
deriving Repr, DecidableEq

/-- Environment for `connect`: the `ssh.Dial` outcome, and the outcome of
`net.Listen` respectively `client.Listen` per requested address. -/
structure ConnectEnv where
  dial : Except String Nat
  netListen : String → Except String Nat
  sshListen : String → Except String Nat

/-- Result of setting up one tunnel inside `connect` (main.go lines
289-310): the obtained listener with its forwarder spawn (none when listen
failed), the failure status emitted (none when listen succeeded), and
whether the unreachable `default: panic` branch was taken. -/
structure TunnelSetup where
  spawned : Option (Nat × ForwardSpawn)
  status : Option String
  panicked : Bool
deriving Repr, DecidableEq

/-- One iteration of the tunnel-setup loop of `connect`. -/
def setupTunnel (cenv : ConnectEnv) (client : Nat) (t : Tunnel) : TunnelSetup :=
  match t.direction with
  | .ExposedLocally =>
    match cenv.netListen t.From.Address with
    | .error e =>
      ⟨none, some ("failed to listen on " ++ t.From.Address ++ " (Local): " ++ e), false⟩
    | .ok l => ⟨some (l, ⟨l, t.To.Address, .sshConn client⟩), none, false⟩
  | .ExposedOnServer =>
    match cenv.sshListen t.From.Address with
    | .error e =>
      ⟨none, some ("failed to listen on " ++ t.From.Address ++ " (Remote): " ++ e), false⟩
    | .ok l => ⟨some (l, ⟨l, t.To.Address, .localNet⟩), none, false⟩
  | .UnspecifiedDirection => ⟨none, none, true⟩

/-- Aggregate result of the tunnel-setup loop. -/
structure SetupResult where
  listeners : List Nat
  statuses : List String
  forwards : List ForwardSpawn
  panicked : Bool
deriving Repr, DecidableEq

/-- The tunnel-setup loop of `connect`: a panic aborts the loop; a listen
failure records its status and skips the tunnel; a listen success records
the listener and the forwarder spawn. -/
def setupTunnels (cenv : ConnectEnv) (client : Nat) : List Tunnel → SetupResult
  | [] => ⟨[], [], [], false⟩
  | t :: ts =>
    let s := setupTunnel cenv client t
    if s.panicked then ⟨[], [], [], true⟩
    else
      let r := setupTunnels cenv client ts
      match s.spawned with
      | some lf => ⟨lf.1 :: r.listeners, s.status.toList ++ r.statuses,
                    lf.2 :: r.forwards, r.panicked⟩
      | none => ⟨r.listeners, s.status.toList ++ r.statuses, r.forwards, r.panicked⟩

/-- The listener obtained for a tunnel by `connect`, if its listen call
succeeded (characterizes which tunnels contribute a listener). -/
def tunnelListenerOf (cenv : ConnectEnv) (client : Nat) (t : Tunnel) : Option Nat :=
  (setupTunnel cenv client t).spawned.map (·.1)

/-- The forwarder spawned for a tunnel by `connect`, if its listen call
succeeded. -/
def tunnelForwardOf (cenv : ConnectEnv) (client : Nat) (t : Tunnel) : Option ForwardSpawn :=
  (setupTunnel cenv client t).spawned.map (·.2)

/-- Result of a `connect` attempt: the mutated connection, the returned
success flag, the emitted statuses, the forwarders spawned, and whether the
unreachable panic was hit. -/
structure ConnectResult where
  conn : Connection
  success : Bool
  statuses : List String
  forwards : List ForwardSpawn
  panicked : Bool
deriving Repr, DecidableEq

/-- Embedding of `Connection.connect` (main.go lines 258-314). -/
def connect (env : Env) (cenv : ConnectEnv) (c : Connection) : ConnectResult :=
  match c.conn with
  | some _ => ⟨c, true, ["already connected"], [], false⟩
  | none =>
    let vr := validate env c
    if vr.2 ≠ "" then ⟨vr.1, false, [vr.2], [], false⟩
    else
      match cenv.dial with
      | .error e =>
        ⟨vr.1, false,
          ["connecting", "failed to connect to " ++ vr.1.Host ++ ": " ++ e], [], false⟩
      | .ok client =>
        let c1 := { vr.1 with conn := some client }
        let s := setupTunnels cenv client c1.Tunnels
        if s.panicked then
          ⟨{ c1 with listeners := c1.listeners ++ s.listeners }, true,
            "connecting" :: "configuring tunnels" :: s.statuses, s.forwards, true⟩
        else
          ⟨{ c1 with listeners := c1.listeners ++ s.listeners }, true,
            "connecting" :: "configuring tunnels" :: (s.statuses ++ ["ok"]),
            s.forwards, false⟩

/-- Result of `Connection.Close`: the mutated connection, the asynchronous
closes scheduled (`go c.conn.Close()`, `go l.Close()`), and the returned
error. -/
structure CloseResult where
  conn : Connection
  scheduledSessionCloses : List Nat
  scheduledListenerCloses : List Nat
  err : Option String
deriving Repr, DecidableEq

/-- Embedding of `Connection.Close` (main.go lines 316-326): schedule an
asynchronous close of the session (when present) and of every listener, then
clear both handles immediately; always returns nil. -/
def Connection.Close (c : Connection) : CloseResult :=
  { conn := { c with conn := none, listeners := [] }
    scheduledSessionCloses := c.conn.toList
    scheduledListenerCloses := c.listeners
    err := none }

/-- Environment for `IsAlive`: the outcome of the select race between the
timeout timer and the keepalive-response channel.  `respBeforeDeadline`
tells which of the two fires first; `respErr` is the error carried by the
keepalive response (relevant only when the response wins the race — a loser
response is abandoned unobserved). -/
structure ProbeEnv where
  respBeforeDeadline : Bool
  respErr : Option String
deriving Repr, DecidableEq

/-- Embedding of `Connection.IsAlive` (main.go lines 328-348): no session
means not alive; otherwise the keepalive response races the timeout timer,
and the probe is alive exactly when the response wins carrying no error. -/
def IsAlive (c : Connection) (timeout : Nat) (penv : ProbeEnv) : Bool :=
  match c.conn with
  | none => false
  | some _ => if penv.respBeforeDeadline then penv.respErr.isNone else false

/-- The backoff update of `Handle` on a failed reconnect (main.go lines
370-373): double the delay, then cap it at `MaxReconnectDelay`. -/
def nextDelay (d cap : Nat) : Nat :=
  let d2 := d * 2
  if d2 > cap then cap else d2

/-- Environment for one iteration of the `Handle` loop: the probe race
outcome and the connect-attempt outcomes of that iteration. -/
structure TickEnv where
  probe : ProbeEnv
  connectEnv : ConnectEnv

/-- Result of one iteration of the `Handle` loop: the new connection state,
the statuses emitted, and the backoff sleep performed (none when the
iteration did not sleep). -/
structure HandleStepResult where
  conn : Connection
  statuses : List String
  slept : Option Nat
deriving Repr, DecidableEq

/-- One iteration of the `for` loop of `Handle` (main.go lines 356-377).
`kii` is the keepalive interval read once before the loop.  An alive probe
resets the backoff delay to one second and waits for the next tick;
otherwise the loop records "disconnected", closes, reconnects, and on a
failed reconnect doubles-and-caps the delay, records the reconnecting
status, and sleeps for the delay. -/
def handleStep (env : Env) (kii : Nat) (te : TickEnv) (c : Connection) :
    HandleStepResult :=
  if IsAlive c (kii / 10 * 9) te.probe then
    ⟨{ c with reconnectDelay := second }, [], none⟩
  else
    let c1 := (Connection.Close c).conn
    let r := connect env te.connectEnv c1
    if r.success then ⟨r.conn, "disconnected" :: r.statuses, none⟩
    else
      let d := nextDelay r.conn.reconnectDelay r.conn.MaxReconnectDelay
      ⟨{ r.conn with reconnectDelay := d },
        ("disconnected" :: r.statuses) ++ ["reconnecting in " ++ durString d],
        some d⟩

/-- Result of a finite run of the `Handle` loop. -/
structure HandleRunResult where
  conn : Connection
  statuses : List String
  sleeps : List Nat
deriving Repr, DecidableEq

/-- A finite run of the `Handle` loop, one `TickEnv` per iteration,
collecting all statuses and backoff sleeps in order. -/
def handleRun (env : Env) (kii : Nat) : Connection → List TickEnv → HandleRunResult
  | c, [] => ⟨c, [], []⟩
  | c, te :: rest =>
    let r := handleStep env kii te c
    let rr := handleRun env kii r.conn rest
    ⟨rr.conn, r.statuses ++ rr.statuses, r.slept.toList ++ rr.sleeps⟩

/-- Embedding of `Handle` (main.go lines 350-378) up to a finite number of
loop iterations: read the keepalive interval, initialize the backoff delay
to one second, then run the loop. -/
def Handle (env : Env) (c : Connection) (tes : List TickEnv) : HandleRunResult :=
  handleRun env c.KeepAliveInterval { c with reconnectDelay := second } tes

/-- A `Pipe` (pipe source file): two coupled connections (opaque ids) and
the two `sync.Once` guards. -/
structure Pipe where
  conn1 : Nat
  conn2 : Nat
  close1Done : Bool := false
  close2Done : Bool := false
deriving Repr, DecidableEq

/-- Embedding of `ConnectConns`: builds the pipe with fresh `sync.Once`
guards.  The two spawned copy goroutines each invoke `Pipe.Close` when their
direction finishes; those invocations are modelled as elements of the
close-call sequences fed to `runCloses`. -/
def ConnectConns (c1 c2 : Nat) : Pipe :=
  { conn1 := c1, conn2 := c2 }

/-- Embedding of `Pipe.Close`: each underlying connection is closed at most
once, guarded by its `sync.Once`.  Returns the new pipe state and the list
of connections actually closed by this call. -/
def Pipe.Close (p : Pipe) : Pipe × List Nat :=
  let s1 := if p.close1Done then (p, ([] : List Nat))
            else ({ p with close1Done := true }, [p.conn1])
  let s2 := if s1.1.close2Done then (s1.1, ([] : List Nat))
            else ({ s1.1 with close2Done := true }, [s1.1.conn2])
  (s2.1, s1.2 ++ s2.2)

/-- A sequence of `n` invocations of `Pipe.Close` (from copy-goroutine
completions and external teardowns, in any interleaving — `sync.Once`
serializes them), collecting every connection actually closed. -/
def runCloses : Pipe → Nat → Pipe × List Nat
  | p, 0 => (p, [])
  | p, n + 1 =>
    let s1 := p.Close
    let s2 := runCloses s1.1 n
    (s2.1, s1.2 ++ s2.2)

/-- One event observed by the accept loop of `Forward`: either
`from.Accept` fails, or it yields a connection (opaque id) together with the
outcome of the asynchronous dial performed for it. -/
inductive AcceptEvent where
  | acceptErr (e : String)
  | accepted (connId : Nat) (dialResult : Except String Nat)
deriving Repr

/-- Result of a run of `Forward`: accepted connections closed because their
dial failed, pipes handed to `ConnectConns`, log lines, and whether the
forwarder terminated (it only terminates on an accept error). -/
structure ForwardResult where
  closed : List Nat
  pipes : List Pipe
  logs : List String
  terminated : Bool
deriving Repr, DecidableEq

/-- Embedding of `Forward` (pipe source file) over a finite event sequence.
`fromAddr` is the listener's address, `to` the dial target.  An accept error
logs and terminates the loop (later events are never seen); a dial failure
closes that accepted connection, logs, and continues; a dial success couples
the two connections with `ConnectConns`. -/
def Forward (fromAddr toAddr : String) : List AcceptEvent → ForwardResult
  | [] => ⟨[], [], [], false⟩
  | .acceptErr e :: _ =>
    ⟨[], [], ["error listening on " ++ fromAddr ++ ": " ++ e], true⟩
  | .accepted id d :: rest =>
    let r := Forward fromAddr toAddr rest
    match d with
    | .error e =>
      { r with closed := id :: r.closed,
               logs := ("failed to connect to " ++ toAddr ++ ": " ++ e) :: r.logs }
    | .ok tid => { r with pipes := ConnectConns id tid :: r.pipes }

/-- Whether an accept-loop event is an accept error. -/
def isAcceptErr : AcceptEvent → Bool
  | .acceptErr _ => true
  | .accepted _ _ => false

/-- The prefix of an event sequence actually processed by `Forward` before
the first accept error. -/
def beforeErr (evs : List AcceptEvent) : List AcceptEvent :=
  evs.takeWhile (fun e => !isAcceptErr e)

/-- The accepted connections in an event list whose dial failed. -/
def failedIds : List AcceptEvent → List Nat
  | [] => []
  | .accepted id (.error _) :: r => id :: failedIds r
  | _ :: r => failedIds r

/-- The (accepted, dialed) pairs in an event list whose dial succeeded. -/
def okPairs : List AcceptEvent → List (Nat × Nat)
  | [] => []
  | .accepted id (.ok tid) :: r => (id, tid) :: okPairs r
  | _ :: r => okPairs r

/-- A locally-exposed tunnel like the sample config's database tunnel. -/
def tunnelStd : Tunnel :=
  { From := ⟨"Local", "127.0.0.1:30000"⟩, To := ⟨"Remote", "127.0.0.1:3306"⟩ }

/-- A server-exposed tunnel like the sample config's web tunnel. -/
def tunnelRev : Tunnel :=
  { From := ⟨"Remote", "0.0.0.0:80"⟩, To := ⟨"Local", "127.0.0.1:80"⟩ }

/-- A tunnel with an invalid side combination (both endpoints "Local"). -/
def tunnelBad : Tunnel :=
  { From := ⟨"Local", "127.0.0.1:1"⟩, To := ⟨"Local", "127.0.0.1:2"⟩ }

/-- A concrete valid connection record used for concrete runs. -/
def connStd : Connection :=
  { Name := "db", Host := "example.com:22", Username := "root",
    KeyFile := "", Key := "", Password := "", Fingerprint := "",
    KeepAliveInterval := 60 * second, MaxReconnectDelay := 60 * second,
    Tunnels := [tunnelStd] }

/-- The state `connStd` reaches after one pass of `validate` (directions
derived) with backoff delay `d`; the `Handle` failure loop cycles through
these states. -/
def connStdD (d : Nat) : Connection :=
  { connStd with Tunnels := [{ tunnelStd with direction := .ExposedLocally }],
                 reconnectDelay := d }

/-- Concrete connection with an active session. -/
def connAlive : Connection := { connStd with conn := some 5 }

/-- Concrete connection with a 4-second backoff delay accumulated. -/
def connStd4 : Connection := { connStd with reconnectDelay := 4 * second }

/-- Concrete connection with both inline key material and a password. -/
def connC4 : Connection := { connStd with Key := "KEY", Password := "pw" }

/-- Concrete connection with both a key file and inline key material. -/
def connC4both : Connection := { connStd with KeyFile := "/k.pem", Key := "KEY" }

/-- Concrete connection with two tunnels, for the per-tunnel skip run. -/
def connC7 : Connection := { connStd with Tunnels := [tunnelStd, tunnelRev] }

/-- Concrete connection whose host string has no port. -/
def connC10 : Connection := { connStd with Host := "myhost" }

/-- Concrete validation environment: every host resolves, no key files
exist, keys never parse (no key is used by `connStd`). -/
def envStd : Env :=
  { lookupHost := fun _ => ["192.0.2.1"],
    readFile := fun _ => .error "file not found",
    parsePrivateKey := fun _ => .error "key parse failed",
    parsePrivateKeyWithPassphrase := fun _ _ => .error "key parse failed" }

/-- Environment where the inline key "KEY" parses with passphrase "pw"
(an encrypted key whose passphrase is the configured password). -/
def envC4 : Env :=
  { lookupHost := fun _ => ["192.0.2.1"],
    readFile := fun _ => .error "file not found",
    parsePrivateKey := fun _ => .error "key is passphrase protected",
    parsePrivateKeyWithPassphrase := fun k p =>
      if k = "KEY" ∧ p = "pw" then .ok "signer" else .error "bad passphrase" }

/-- Connect environment whose SSH dial fails. -/
def cenvFail : ConnectEnv :=
  { dial := .error "connection refused",
    netListen := fun _ => .ok 1, sshListen := fun _ => .ok 2 }

/-- Connect environment whose SSH dial and all listens succeed. -/
def cenvOk : ConnectEnv :=
  { dial := .ok 7, netListen := fun _ => .ok 1, sshListen := fun _ => .ok 2 }

/-- Connect environment where the dial succeeds but the local listen for
`tunnelStd`'s bind address fails. -/
def cenvC7 : ConnectEnv :=
  { dial := .ok 7,
    netListen := fun a => if a = "127.0.0.1:30000" then .error "address in use" else .ok 3,
    sshListen := fun _ => .ok 4 }

/-- Loop-iteration environment: probe loses the race, reconnect fails. -/
def teFail : TickEnv := ⟨⟨false, none⟩, cenvFail⟩

/-- Loop-iteration environment: probe loses the race, reconnect succeeds. -/
def teOk : TickEnv := ⟨⟨false, none⟩, cenvOk⟩

/-- Loop-iteration environment: probe response wins the race, no error. -/
def teAlive : TickEnv := ⟨⟨true, none⟩, cenvOk⟩

/-! Helper lemmas. -/

/-- Appending to a nonempty string stays nonempty. -/
theorem append_ne_empty_left (s t : String) (h : s ≠ "") : s ++ t ≠ "" := by
  cases s with
  | mk l =>
    cases t with
    | mk m =>
      intro he
      apply h
      have hd : l ++ m = [] := congrArg String.data he
      have hl : l = [] := (List.append_eq_nil.mp hd).1
      rw [hl]

/-- Appending a nonempty string yields a nonempty string. -/
theorem append_ne_empty_right (s t : String) (h : t ≠ "") : s ++ t ≠ "" := by
  cases s with
  | mk l =>
    cases t with
    | mk m =>
      intro he
      apply h
      have hd : l ++ m = [] := congrArg String.data he
      have hm : m = [] := (List.append_eq_nil.mp hd).2
      rw [hm]

/-- The address checks never mutate the tunnel they are given. -/
theorem checkAddrs_fst (n : String) (t : Tunnel) : (checkAddrs n t).1 = t := by
  unfold checkAddrs
  repeat (first | rfl | split)

/-- The double-and-cap backoff update computes a minimum. -/
theorem nextDelay_eq_min (d cap : Nat) : nextDelay d cap = min (d * 2) cap := by
  show (if d * 2 > cap then cap else d * 2) = min (d * 2) cap
  split <;> omega

/-- Iterating the backoff update from the 1-second floor yields the capped
powers of two: after `n + 1` doublings the delay is
`min (2 ^ (n + 1) s) cap`. -/
theorem iterate_nextDelay (cap : Nat) :
    ∀ n, Nat.iterate (fun d => nextDelay d cap) (n + 1) second =
      min (2 ^ (n + 1) * second) cap := by
  intro n
  induction n with
  | zero =>
    rw [show (0 + 1) = 1 from rfl, Function.iterate_one, nextDelay_eq_min]
    have h1 : (2 : Nat) ^ 1 * second = second * 2 := by ring
    rw [h1]
  | succ k ih =>
    rw [Function.iterate_succ_apply']
    rw [ih]
    show nextDelay (min (2 ^ (k + 1) * second) cap) cap = _
    rw [nextDelay_eq_min]
    have h2 : (2 : Nat) ^ (k + 1 + 1) * second = 2 ^ (k + 1) * second * 2 := by ring
    rw [h2]
    omega

/-- A pipe with both once-guards fired ignores further close calls. -/
theorem runCloses_closed (c1 c2 : Nat) (n : Nat) :
    runCloses ⟨c1, c2, true, true⟩ n = (⟨c1, c2, true, true⟩, []) := by
  induction n with
  | zero => rfl
  | succ k ih => simp [runCloses, Pipe.Close, ih]

/-- C5: `Close` on a Connection is idempotent and never errors: it returns
nil, always leaves the session handle nil and the listener set empty; with
no active session and no listeners it is a no-op (state unchanged, nothing
scheduled); and a second close in a row errors nothing, schedules nothing,
and changes nothing. -/
theorem C5_close (c : Connection) :
    (Connection.Close c).err = none ∧
    (Connection.Close c).conn.conn = none ∧
    (Connection.Close c).conn.listeners = [] ∧
    (c.conn = none → c.listeners = [] →
      (Connection.Close c).conn = c ∧
      (Connection.Close c).scheduledSessionCloses = [] ∧
      (Connection.Close c).scheduledListenerCloses = []) ∧
    (Connection.Close (Connection.Close c).conn).err = none ∧
    (Connection.Close (Connection.Close c).conn).scheduledSessionCloses = [] ∧
    (Connection.Close (Connection.Close c).conn).scheduledListenerCloses = [] ∧
    (Connection.Close (Connection.Close c).conn).conn = (Connection.Close c).conn := by
  refine ⟨rfl, rfl, rfl, ?_, rfl, rfl, rfl, rfl⟩
  intro h1 h2
  refine ⟨?_, ?_, ?_⟩
  · cases c
    simp_all [Connection.Close]
  · simp [Connection.Close, h1]
  · simp [Connection.Close, h2]

/-- Witness for C5 at a concrete connection with no session and no
listeners. -/
theorem C5_close_witness :
    (Connection.Close connStd).conn = connStd ∧
    (Connection.Close connStd).scheduledSessionCloses = [] ∧
    (Connection.Close connStd).scheduledListenerCloses = [] ∧
    (Connection.Close connStd).err = none :=
  ⟨((C5_close connStd).2.2.2.1 rfl rfl).1,
   ((C5_close connStd).2.2.2.1 rfl rfl).2.1,
   ((C5_close connStd).2.2.2.1 rfl rfl).2.2,
   (C5_close connStd).1⟩

/-- C6: the liveness probe is alive exactly when a session exists and the
keepalive response wins the race against the deadline carrying no error;
it is not alive when the deadline fires first (even if the response would
have been error-free), when the response carries an error, or when no
session exists. -/
theorem C6_isAlive (c : Connection) (timeout : Nat) (penv : ProbeEnv) :
    (IsAlive c timeout penv = true ↔
      (c.conn ≠ none ∧ penv.respBeforeDeadline = true ∧ penv.respErr = none)) ∧
    (penv.respBeforeDeadline = false → IsAlive c timeout penv = false) ∧
    (penv.respErr ≠ none → IsAlive c timeout penv = false) ∧
    (c.conn = none → IsAlive c timeout penv = false) := by
  unfold IsAlive
  cases hc : c.conn <;> cases hb : penv.respBeforeDeadline <;>
    cases he : penv.respErr <;> simp_all

/-- Witness for C6 covering all four cases at concrete inputs. -/
theorem C6_isAlive_witness :
    IsAlive connAlive 1000 ⟨true, none⟩ = true ∧
    IsAlive connAlive 1000 ⟨false, none⟩ = false ∧
    IsAlive connAlive 1000 ⟨true, some "broken"⟩ = false ∧
    IsAlive connStd 1000 ⟨true, none⟩ = false :=
  ⟨(C6_isAlive connAlive 1000 ⟨true, none⟩).1.mpr ⟨by decide, rfl, rfl⟩,
   (C6_isAlive connAlive 1000 ⟨false, none⟩).2.1 rfl,
   (C6_isAlive connAlive 1000 ⟨true, some "broken"⟩).2.2.1 (by decide),
   (C6_isAlive connStd 1000 ⟨true, none⟩).2.2.2 rfl⟩

/-- C8: over any event sequence, the forwarder closes exactly the accepted
connections whose dial failed (in the prefix before the first accept
error), pipes exactly the accepted connections whose dial succeeded in that
prefix, and terminates exactly when an accept error occurs — so a dial
failure closes only its own accepted connection and the loop continues,
while an accept error ends the forwarder. -/
theorem C8_forward (fromAddr toAddr : String) (evs : List AcceptEvent) :
    (Forward fromAddr toAddr evs).closed = failedIds (beforeErr evs) ∧
    (Forward fromAddr toAddr evs).pipes =
      (okPairs (beforeErr evs)).map (fun p => ConnectConns p.1 p.2) ∧
    (Forward fromAddr toAddr evs).terminated = evs.any isAcceptErr := by
  induction evs with
  | nil => exact ⟨rfl, rfl, rfl⟩
  | cons e rest ih =>
    cases e with
    | acceptErr msg =>
      refine ⟨?_, ?_, ?_⟩ <;>
        simp [Forward, beforeErr, failedIds, okPairs, isAcceptErr, List.takeWhile]
    | accepted id d =>
      cases d with
      | error e2 =>
        refine ⟨?_, ?_, ?_⟩ <;>
          simp [Forward, beforeErr, failedIds, okPairs, isAcceptErr,
                List.takeWhile, ih.1, ih.2.1, ih.2.2]
      | ok tid =>
        refine ⟨?_, ?_, ?_⟩ <;>
          simp [Forward, beforeErr, failedIds, okPairs, isAcceptErr,
                List.takeWhile, ih.1, ih.2.1, ih.2.2]

/-- C9: on a freshly coupled pipe, any positive number of close invocations
(the first coming from whichever copy direction finishes first, plus any
further completion paths or external closes) closes both underlying
streams, each exactly once: the collected closes are exactly
`[conn1, conn2]` no matter how many invocations follow. -/
theorem C9_pipe (c1 c2 n : Nat) :
    runCloses (ConnectConns c1 c2) (n + 1) =
      (⟨c1, c2, true, true⟩, [c1, c2]) := by
  have h1 : (ConnectConns c1 c2).Close = (⟨c1, c2, true, true⟩, [c1, c2]) := rfl
  show (let s1 := (ConnectConns c1 c2).Close
        let s2 := runCloses s1.1 n
        (s2.1, s1.2 ++ s2.2)) = _
  rw [h1]
  simp [runCloses_closed]

/-- C3: with both endpoint addresses present, a Local→Remote tunnel is
derived as ExposedLocally and a Remote→Local tunnel as ExposedOnServer; any
other combination of side tags makes the tunnel check report an issue and
leaves the direction untouched (hence unassigned). -/
theorem C3_direction (name : String) (t : Tunnel)
    (hfa : t.From.Address ≠ "") (hta : t.To.Address ≠ "") :
    (t.From.Side = "Local" → t.To.Side = "Remote" →
      (validateTunnel name t).1.direction = .ExposedLocally) ∧
    (t.From.Side = "Remote" → t.To.Side = "Local" →
      (validateTunnel name t).1.direction = .ExposedOnServer) ∧
    (¬(t.From.Side = "Local" ∧ t.To.Side = "Remote") →
     ¬(t.From.Side = "Remote" ∧ t.To.Side = "Local") →
      (validateTunnel name t).2 ≠ "" ∧
      (validateTunnel name t).1.direction = t.direction) := by
  refine ⟨?_, ?_, ?_⟩
  · intro h1 h2
    simp [validateTunnel, h1, h2, hfa, hta, checkAddrs_fst]
  · intro h1 h2
    simp [validateTunnel, h1, h2, hfa, hta, checkAddrs_fst]
  · intro hn1 hn2
    by_cases e1 : t.From.Side = ""
    · have hv : validateTunnel name t = (t, name ++ ".From.Side is empty") := by
        simp [validateTunnel, e1]
      rw [hv]
      exact ⟨append_ne_empty_right _ _ (by decide), rfl⟩
    · by_cases e3 : t.To.Side = ""
      · have hv : validateTunnel name t = (t, name ++ ".To.Side is empty") := by
          simp [validateTunnel, e1, e3, hfa]
        rw [hv]
        exact ⟨append_ne_empty_right _ _ (by decide), rfl⟩
      · have hv : validateTunnel name t =
            (t, "for connection " ++ name ++
              ", tunnel should be Local->Remote or Remote->Local") := by
          simp [validateTunnel, e1, e3, hfa, hta, hn1, hn2]
        rw [hv]
        exact ⟨append_ne_empty_right _ _ (by decide), rfl⟩

/-- Witness for C3 at the three concrete tunnels. -/
theorem C3_direction_witness :
    (validateTunnel "db" tunnelStd).1.direction = .ExposedLocally ∧
    (validateTunnel "db" tunnelRev).1.direction = .ExposedOnServer ∧
    ((validateTunnel "db" tunnelBad).2 ≠ "" ∧
     (validateTunnel "db" tunnelBad).1.direction = tunnelBad.direction) :=
  ⟨(C3_direction "db" tunnelStd (by decide) (by decide)).1 rfl rfl,
   (C3_direction "db" tunnelRev (by decide) (by decide)).2.1 rfl rfl,
   (C3_direction "db" tunnelBad (by decide) (by decide)).2.2 (by decide) (by decide)⟩

/-- Counterexample to C4: a record with both inline key material and a
password populated (an encrypted key whose passphrase is the password)
passes validation — the password is not mutually exclusive with a key, it
is consumed as the key's passphrase. -/
theorem C4_counterexample :
    connC4.Key ≠ "" ∧ connC4.Password ≠ "" ∧ connC4.KeyFile = "" ∧
    (validate envC4 connC4).2 = "" ∧
    (validate envC4 connC4).1.auth = some (.publicKeys "signer") := by
  decide

/-- C4 amended: only `KeyFile` and `Key` are mutually exclusive — a record
passing the earlier field checks with both of them populated is rejected
with the conflicting-credentials issue.  (`Password` may coexist with
either key source: it is used as the key's passphrase, see the
counterexample.) -/
theorem C4_amended (env : Env) (c : Connection)
    (h1 : c.Name ≠ "") (h2 : c.Host ≠ "") (h3 : c.Username ≠ "")
    (h4 : c.Tunnels ≠ []) (h5 : c.KeyFile ≠ "") (h6 : c.Key ≠ "") :
    (validate env c).2 = "connection " ++ c.Name ++ " has both KeyFile and Key set" := by
  simp [validate, h1, h2, h3, h4, h5, h6]

/-- Witness for C4 amended at a concrete record with both key sources. -/
theorem C4_amended_witness :
    (validate envStd connC4both).2 = "connection db has both KeyFile and Key set" :=
  (C4_amended envStd connC4both (by decide) (by decide) (by decide) (by decide)
    (by decide) (by decide)).trans (by decide)

/-- The password-fallback-and-tunnels tail of `validate` keeps the
connection's internal handles and host. -/
theorem finishAuth_fields (c : Connection) :
    (finishAuth c).1.reconnectDelay = c.reconnectDelay ∧
    (finishAuth c).1.conn = c.conn ∧
    (finishAuth c).1.listeners = c.listeners ∧
    (finishAuth c).1.Host = c.Host :=
  ⟨rfl, rfl, rfl, rfl⟩

/-- The key-parsing step of `validate` keeps the connection's internal
handles and host. -/
theorem parseKeyAuth_fields (env : Env) (c : Connection) (key : String) :
    (parseKeyAuth env c key).1.reconnectDelay = c.reconnectDelay ∧
    (parseKeyAuth env c key).1.conn = c.conn ∧
    (parseKeyAuth env c key).1.listeners = c.listeners ∧
    (parseKeyAuth env c key).1.Host = c.Host := by
  unfold parseKeyAuth
  dsimp only
  split
  · exact ⟨rfl, rfl, rfl, rfl⟩
  · exact finishAuth_fields _

/-- The credential steps of `validate` keep the connection's internal
handles and host. -/
theorem validateAuth_fields (env : Env) (c : Connection) :
    (validateAuth env c).1.reconnectDelay = c.reconnectDelay ∧
    (validateAuth env c).1.conn = c.conn ∧
    (validateAuth env c).1.listeners = c.listeners ∧
    (validateAuth env c).1.Host = c.Host := by
  unfold validateAuth
  split
  · split
    · exact ⟨rfl, rfl, rfl, rfl⟩
    · exact parseKeyAuth_fields _ _ _
  · split
    · exact parseKeyAuth_fields _ _ _
    · exact finishAuth_fields _

/-- Validation keeps the connection's internal handles: the backoff delay,
the session handle and the listener set are never touched by `validate`. -/
theorem validate_fields (env : Env) (c : Connection) :
    (validate env c).1.reconnectDelay = c.reconnectDelay ∧
    (validate env c).1.conn = c.conn ∧
    (validate env c).1.listeners = c.listeners := by
  unfold validate
  dsimp only
  split
  · exact ⟨rfl, rfl, rfl⟩
  split
  · exact ⟨rfl, rfl, rfl⟩
  split
  · exact ⟨rfl, rfl, rfl⟩
  split
  · exact ⟨rfl, rfl, rfl⟩
  split
  · exact ⟨rfl, rfl, rfl⟩
  split
  · exact ⟨rfl, rfl, rfl⟩
  · exact ⟨(validateAuth_fields env _).1, (validateAuth_fields env _).2.1,
      (validateAuth_fields env _).2.2.1⟩

/-- A tunnel that passed its per-tunnel check — or whose check failed only
on an address — carries a derived direction or a nonempty issue. -/
theorem validateTunnel_direction_or_err (n : String) (t : Tunnel) :
    ((validateTunnel n t).1.direction = .ExposedLocally ∨
     (validateTunnel n t).1.direction = .ExposedOnServer) ∨
    (validateTunnel n t).2 ≠ "" := by
  unfold validateTunnel
  split
  · exact Or.inr (append_ne_empty_right _ _ (by decide))
  split
  · exact Or.inr (append_ne_empty_right _ _ (by decide))
  split
  · exact Or.inr (append_ne_empty_right _ _ (by decide))
  split
  · exact Or.inr (append_ne_empty_right _ _ (by decide))
  split
  · exact Or.inl (Or.inl (by rw [checkAddrs_fst]))
  split
  · exact Or.inl (Or.inr (by rw [checkAddrs_fst]))
  · exact Or.inr (append_ne_empty_right _ _ (by decide))

/-- When the tunnel loop of `validate` reports no issue, every tunnel it
returns carries a derived direction. -/
theorem validateTunnels_success (n : String) (ts : List Tunnel)
    (h : (validateTunnels n ts).2 = "") :
    ∀ t ∈ (validateTunnels n ts).1, t.direction ≠ .UnspecifiedDirection := by
  induction ts with
  | nil =>
    intro t ht
    simp [validateTunnels] at ht
  | cons t ts ih =>
    by_cases he : (validateTunnel n t).2 ≠ ""
    · exfalso
      apply he
      have hx : (validateTunnels n (t :: ts)).2 = (validateTunnel n t).2 := by
        simp [validateTunnels, he]
      rw [← hx, h]
    · push_neg at he
      have hx : validateTunnels n (t :: ts) =
          ((validateTunnel n t).1 :: (validateTunnels n ts).1,
            (validateTunnels n ts).2) := by
        simp [validateTunnels, he]
      rw [hx] at h ⊢
      intro x hxm
      rcases List.mem_cons.mp hxm with hxm | hxm
      · subst hxm
        rcases validateTunnel_direction_or_err n t with (hd | hd) | hd
        · rw [hd]; intro hc; cases hc
        · rw [hd]; intro hc; cases hc
        · exact absurd he hd
      · exact ih h x hxm

/-- When the tail of `validate` reports no issue, every returned tunnel
carries a derived direction. -/
theorem finishAuth_success_tunnels (c : Connection)
    (h : (finishAuth c).2 = "") :
    ∀ t ∈ (finishAuth c).1.Tunnels, t.direction ≠ .UnspecifiedDirection :=
  fun t ht => validateTunnels_success c.Name c.Tunnels h t ht

/-- When the key-parsing step of `validate` reports no issue, every
returned tunnel carries a derived direction. -/
theorem parseKeyAuth_success_tunnels (env : Env) (c : Connection) (key : String)
    (h : (parseKeyAuth env c key).2 = "") :
    ∀ t ∈ (parseKeyAuth env c key).1.Tunnels, t.direction ≠ .UnspecifiedDirection := by
  revert h
  unfold parseKeyAuth
  dsimp only
  split
  · intro h
    exact absurd h (append_ne_empty_left _ _ (append_ne_empty_right _ _ (by decide)))
  · intro h
    exact finishAuth_success_tunnels _ h

/-- When the credential steps of `validate` report no issue, every
returned tunnel carries a derived direction. -/
theorem validateAuth_success_tunnels (env : Env) (c : Connection)
    (h : (validateAuth env c).2 = "") :
    ∀ t ∈ (validateAuth env c).1.Tunnels, t.direction ≠ .UnspecifiedDirection := by
  revert h
  unfold validateAuth
  split
  · split
    · intro h
      exact absurd h (append_ne_empty_left _ _ (append_ne_empty_right _ _ (by decide)))
    · intro h
      exact parseKeyAuth_success_tunnels _ _ _ h
  · split
    · intro h
      exact parseKeyAuth_success_tunnels _ _ _ h
    · intro h
      exact finishAuth_success_tunnels _ h

/-- When `validate` reports no issue, every tunnel of the validated
connection carries a derived direction (so the tunnel-setup loop of
`connect` can never hit its unreachable panic). -/
theorem validate_success_tunnels (env : Env) (c : Connection)
    (h : (validate env c).2 = "") :
    ∀ t ∈ (validate env c).1.Tunnels, t.direction ≠ .UnspecifiedDirection := by
  revert h
  unfold validate
  dsimp only
  split
  · intro h
    exact absurd h (show ("connection has no name" : String) ≠ "" by decide)
  split
  · intro h
    exact absurd h (append_ne_empty_left _ _ (by decide))
  split
  · intro h
    exact absurd h (append_ne_empty_left _ _ (by decide))
  split
  · intro h
    exact absurd h (append_ne_empty_left _ _ (by decide))
  split
  · intro h
    exact absurd h (append_ne_empty_right _ _ (by decide))
  split
  · intro h
    exact absurd h (append_ne_empty_left _ _ (append_ne_empty_right _ _ (by decide)))
  · intro h
    exact validateAuth_success_tunnels _ _ h

/-- The credential steps of `validate` never touch the host field. -/
theorem validateAuth_Host (env : Env) (c : Connection) :
    (validateAuth env c).1.Host = c.Host :=
  (validateAuth_fields env c).2.2.2

/-- A tunnel with a derived direction never reaches the panic branch of the
setup loop. -/
theorem setupTunnel_not_panicked (cenv : ConnectEnv) (client : Nat) (t : Tunnel)
    (h : t.direction ≠ .UnspecifiedDirection) :
    (setupTunnel cenv client t).panicked = false := by
  unfold setupTunnel
  split
  · split <;> rfl
  · split <;> rfl
  · rename_i heq
    exact absurd heq h

/-- The tunnel-setup loop over directed tunnels is tunnel-wise independent:
it never panics, and the obtained listeners, emitted statuses and spawned
forwarders are each the filterMap of the corresponding single-tunnel
outcome — so one tunnel's listen failure cannot affect any other tunnel. -/
theorem setupTunnels_eq (cenv : ConnectEnv) (client : Nat) (ts : List Tunnel)
    (h : ∀ t ∈ ts, t.direction ≠ .UnspecifiedDirection) :
    setupTunnels cenv client ts =
      ⟨ts.filterMap (tunnelListenerOf cenv client),
       ts.filterMap (fun t => (setupTunnel cenv client t).status),
       ts.filterMap (tunnelForwardOf cenv client),
       false⟩ := by
  induction ts with
  | nil => rfl
  | cons t ts ih =>
    have hd := setupTunnel_not_panicked cenv client t (h t (List.mem_cons_self t ts))
    have hrest := ih (fun x hx => h x (List.mem_cons_of_mem t hx))
    cases hs : (setupTunnel cenv client t).spawned with
    | none =>
      cases hst : (setupTunnel cenv client t).status with
      | none =>
        simp [setupTunnels, hd, hs, hst, hrest, tunnelListenerOf, tunnelForwardOf,
          List.filterMap_cons]
      | some m =>
        simp [setupTunnels, hd, hs, hst, hrest, tunnelListenerOf, tunnelForwardOf,
          List.filterMap_cons]
    | some lf =>
      cases hst : (setupTunnel cenv client t).status with
      | none =>
        simp [setupTunnels, hd, hs, hst, hrest, tunnelListenerOf, tunnelForwardOf,
          List.filterMap_cons]
      | some m =>
        simp [setupTunnels, hd, hs, hst, hrest, tunnelListenerOf, tunnelForwardOf,
          List.filterMap_cons]

/-- C7: when no session exists, the record validates and the SSH dial
succeeds, `connect` returns success whatever the per-tunnel listen outcomes
are (even if every listen fails); it never panics; and the listener set,
spawned forwarders and emitted per-tunnel statuses are tunnel-wise
independent filterMaps — a failed tunnel contributes only its failure
status (no listener, no forwarder) and the remaining tunnels proceed. -/
theorem C7_connect (env : Env) (cenv : ConnectEnv) (c : Connection) (client : Nat)
    (h1 : c.conn = none) (h2 : (validate env c).2 = "") (h3 : cenv.dial = .ok client) :
    (connect env cenv c).success = true ∧
    (connect env cenv c).panicked = false ∧
    (connect env cenv c).conn.listeners =
      c.listeners ++ (validate env c).1.Tunnels.filterMap (tunnelListenerOf cenv client) ∧
    (connect env cenv c).forwards =
      (validate env c).1.Tunnels.filterMap (tunnelForwardOf cenv client) ∧
    (connect env cenv c).statuses =
      "connecting" :: "configuring tunnels" ::
        ((validate env c).1.Tunnels.filterMap (fun t => (setupTunnel cenv client t).status)
          ++ ["ok"]) := by
  have hdir : ∀ t ∈ (validate env c).1.Tunnels, t.direction ≠ .UnspecifiedDirection :=
    validate_success_tunnels env c h2
  have hlst : (validate env c).1.listeners = c.listeners :=
    (validate_fields env c).2.2
  have hsetup := setupTunnels_eq cenv client (validate env c).1.Tunnels hdir
  refine ⟨?_, ?_, ?_, ?_, ?_⟩ <;>
    simp [connect, h1, h2, h3, hsetup, hlst]

/-- Witness for C7: concrete two-tunnel connection where the first tunnel's
listen fails — connect still succeeds, only the second tunnel is set up,
and the failure is logged as a status. -/
theorem C7_connect_witness :
    (connect envStd cenvC7 connC7).success = true ∧
    (connect envStd cenvC7 connC7).conn.listeners = [4] ∧
    (connect envStd cenvC7 connC7).forwards = [⟨4, "127.0.0.1:80", .localNet⟩] ∧
    (connect envStd cenvC7 connC7).statuses =
      ["connecting", "configuring tunnels",
       "failed to listen on 127.0.0.1:30000 (Local): address in use", "ok"] := by
  have h := C7_connect envStd cenvC7 connC7 7 rfl (by decide) rfl
  exact ⟨h.1, by decide, by decide, by decide⟩

/-- C10: a host string that does not parse as host:port is not rejected for
that — `validate` rewrites the Host field with the default SSH port 22
appended (literally `host ++ ":22"` when the host has no colon) and then
resolves the original string; at that point the validation fails exactly
with the unresolvable-host issue when DNS returns nothing, and otherwise
proceeds to the remaining (credential and tunnel) checks. -/
theorem C10_host (env : Env) (c : Connection)
    (h1 : c.Name ≠ "") (h2 : c.Host ≠ "") (h3 : c.Username ≠ "") (h4 : c.Tunnels ≠ [])
    (h5 : ¬(c.KeyFile ≠ "" ∧ c.Key ≠ "")) (e : String)
    (hsplit : splitHostPort c.Host = .error e) :
    (validate env c).1.Host = joinHostPort c.Host "22" ∧
    (env.lookupHost c.Host = [] →
      (validate env c).2 =
        "failed to resolve host " ++ joinHostPort c.Host "22" ++
          " for connection " ++ c.Name) ∧
    (env.lookupHost c.Host ≠ [] →
      validate env c = validateAuth env
        { c with
          KeepAliveInterval :=
            if c.KeepAliveInterval = 0 then 60 * second else c.KeepAliveInterval,
          MaxReconnectDelay :=
            if c.MaxReconnectDelay = 0 then 60 * second else c.MaxReconnectDelay,
          Host := joinHostPort c.Host "22" }) ∧
    (c.Host.toList.contains ':' = false →
      joinHostPort c.Host "22" = c.Host ++ ":22") := by
  have hres : resolveHost c.Host = (joinHostPort c.Host "22", c.Host) := by
    simp [resolveHost, hsplit]
  refine ⟨?_, ?_, ?_, ?_⟩
  · by_cases hl : env.lookupHost c.Host = []
    · simp [validate, h1, h2, h3, h4, h5, hres, hl]
    · simp [validate, h1, h2, h3, h4, h5, hres, hl, validateAuth_Host]
  · intro hl
    simp [validate, h1, h2, h3, h4, h5, hres, hl]
  · intro hl
    simp [validate, h1, h2, h3, h4, h5, hres, hl]
  · intro hcolon
    have hm : ':' ∉ c.Host.data := by simpa using hcolon
    simp [joinHostPort, hm, String.append_assoc]

/-- Witness for C10 at a concrete portless host that resolves. -/
theorem C10_host_witness :
    (validate envStd connC10).1.Host = "myhost:22" ∧
    (validate envStd connC10).2 = "" := by
  have h := C10_host envStd connC10 (by decide) (by decide) (by decide) (by decide)
    (by decide) "address myhost: missing port in address" rfl
  exact ⟨h.1.trans (by decide), by decide⟩

/-- A connect attempt never changes the backoff delay: whether it
short-circuits, fails validation, fails the dial, or succeeds, the
`reconnectDelay` field of the resulting connection is the input's. -/
theorem connect_reconnectDelay (env : Env) (cenv : ConnectEnv) (c : Connection) :
    (connect env cenv c).conn.reconnectDelay = c.reconnectDelay := by
  rcases hc : c.conn with _ | cl
  · by_cases hv : (validate env c).2 = ""
    · rcases hd : cenv.dial with e | client
      · simp [connect, hc, hv, hd, (validate_fields env c).1]
      · by_cases hp : (setupTunnels cenv client (validate env c).1.Tunnels).panicked
        · simp [connect, hc, hv, hd, hp, (validate_fields env c).1]
        · simp [connect, hc, hv, hd, hp, (validate_fields env c).1]
    · simp [connect, hc, hv, (validate_fields env c).1]
  · simp [connect, hc]

/-- Running the loop over concatenated iteration environments composes:
the final connection state is that of the second run started from the
first run's final state. -/
theorem handleRun_append (env : Env) (kii : Nat) (l1 l2 : List TickEnv) :
    ∀ c, (handleRun env kii c (l1 ++ l2)).conn =
      (handleRun env kii (handleRun env kii c l1).conn l2).conn := by
  induction l1 with
  | nil =>
    intro c
    rfl
  | cons te l1 ih =>
    intro c
    simp only [List.cons_append, handleRun]
    exact ih _

/-- A failing iteration at the 60-second backoff cap stays at the cap. -/
theorem handleStep_teFail_cap (kii : Nat) :
    handleStep envStd kii teFail (connStdD (60 * second)) =
      ⟨connStdD (60 * second),
        ["disconnected", "connecting",
         "failed to connect to example.com:22: connection refused",
         "reconnecting in 1m0s"],
        some (60 * second)⟩ := rfl

/-- Any number of failing iterations at the cap stays at the cap. -/
theorem handleRun_teFail_cap (kii : Nat) :
    ∀ n, (handleRun envStd kii (connStdD (60 * second)) (List.replicate n teFail)).conn =
      connStdD (60 * second) := by
  intro n
  induction n with
  | zero => rfl
  | succ m ih =>
    rw [List.replicate_succ]
    simp only [handleRun]
    rw [handleStep_teFail_cap kii]
    exact ih

/-- After `k + 1` consecutive failing connect attempts from startup, the
loop's backoff delay is the capped power of two `min (2^(k+1) s, C)`. -/
theorem Handle_replicate_fail (k : Nat) :
    (Handle envStd connStd (List.replicate (k + 1) teFail)).conn.reconnectDelay =
      min (2 ^ (k + 1) * second) (60 * second) := by
  rcases k with _ | _ | _ | _ | _ | _ | m
  · decide
  · decide
  · decide
  · decide
  · decide
  · decide
  · have h76 : m + 6 + 1 = 7 + m := by omega
    have hsplit7 : List.replicate (m + 6 + 1) teFail =
        List.replicate 7 teFail ++ List.replicate m teFail := by
      rw [h76, List.replicate_add]
    rw [hsplit7]
    unfold Handle
    rw [handleRun_append]
    have h7 : (handleRun envStd connStd.KeepAliveInterval
        { connStd with reconnectDelay := second } (List.replicate 7 teFail)).conn =
        connStdD (60 * second) := by decide
    rw [h7, handleRun_teFail_cap connStd.KeepAliveInterval m]
    have h2 : (60 : Nat) ≤ 2 ^ (m + 6 + 1) := by
      calc (60 : Nat) ≤ 2 ^ 7 := by norm_num
      _ ≤ 2 ^ (m + 6 + 1) := Nat.pow_le_pow_right (by norm_num) (by omega)
    have hle : 60 * second ≤ 2 ^ (m + 6 + 1) * second := Nat.mul_le_mul_right second h2
    rw [min_eq_right hle]
    rfl

/-- Counterexample to C1: after the first consecutive connect failure the
supervisor records "reconnecting in 2s" and sleeps 2 seconds — not the
claimed min(2^(1-1), C) = 1 second — because the delay is doubled before it
is recorded and slept for. -/
theorem C1_counterexample :
    (Handle envStd connStd [teFail]).sleeps = [2 * second] ∧
    (Handle envStd connStd [teFail]).conn.reconnectDelay = 2 * second ∧
    2 * second ≠ min (2 ^ (1 - 1) * second) (60 * second) ∧
    (Handle envStd connStd [teFail]).statuses.contains "reconnecting in 2s" = true ∧
    (Handle envStd connStd [teFail]).statuses.contains "reconnecting in 1s" = false := by
  decide

/-- C1 corrected: after n consecutive failed connect attempts the backoff
delay recorded in the status and slept for is min(2^n, C) seconds (the
doubling happens before the first sleep): iterating the backoff update from
the 1-second floor gives the capped powers of two, the loop state after
n+1 failures holds min(2^(n+1) s, C), and the concrete three-failure run
records "reconnecting in 2s", "4s", "8s" and sleeps 2s, 4s, 8s. -/
theorem C1_amended (cap n : Nat) :
    Nat.iterate (fun d => nextDelay d cap) (n + 1) second =
      min (2 ^ (n + 1) * second) cap ∧
    (Handle envStd connStd (List.replicate (n + 1) teFail)).conn.reconnectDelay =
      min (2 ^ (n + 1) * second) (60 * second) ∧
    (Handle envStd connStd [teFail, teFail, teFail]).statuses =
      ["disconnected", "connecting",
       "failed to connect to example.com:22: connection refused",
       "reconnecting in 2s",
       "disconnected", "connecting",
       "failed to connect to example.com:22: connection refused",
       "reconnecting in 4s",
       "disconnected", "connecting",
       "failed to connect to example.com:22: connection refused",
       "reconnecting in 8s"] ∧
    (Handle envStd connStd [teFail, teFail, teFail]).sleeps =
      [2 * second, 4 * second, 8 * second] :=
  ⟨iterate_nextDelay cap n, Handle_replicate_fail n, by decide, by decide⟩

/-- Counterexample to C2: two failed reconnects (delay grown to 4s)
followed by a successful connect — immediately after the successful
connect() the backoff delay is still 4s, not the 1-second floor. -/
theorem C2_counterexample :
    (Handle envStd connStd [teFail, teFail, teOk]).statuses.contains "ok" = true ∧
    (Handle envStd connStd [teFail, teFail, teOk]).conn.reconnectDelay = 4 * second ∧
    4 * second ≠ second := by
  decide

/-- C2 corrected: the backoff delay is reset to the 1-second floor exactly
in the alive branch of the liveness probe, before waiting for the next
tick; a connect() attempt that returns success leaves the delay unchanged
(the reset happens only on a later successful probe, not at the point of
successful connect). -/
theorem C2_amended (env : Env) (kii : Nat) (te : TickEnv) (c : Connection) :
    (IsAlive c (kii / 10 * 9) te.probe = true →
      (handleStep env kii te c).conn.reconnectDelay = second) ∧
    (IsAlive c (kii / 10 * 9) te.probe = false →
      (connect env te.connectEnv (Connection.Close c).conn).success = true →
      (handleStep env kii te c).conn.reconnectDelay = c.reconnectDelay) := by
  constructor
  · intro h
    simp [handleStep, h]
  · intro h hs
    have hr := connect_reconnectDelay env te.connectEnv (Connection.Close c).conn
    simp [handleStep, h, hs]
    rw [hr]
    rfl

/-- Witness for C2 amended: the alive branch resets a concrete connection's
delay to 1s; a successful reconnect leaves a concrete 4s delay unchanged. -/
theorem C2_amended_witness :
    (handleStep envStd (60 * second) teAlive connAlive).conn.reconnectDelay = second ∧
    (handleStep envStd (60 * second) teOk connStd4).conn.reconnectDelay = 4 * second := by
  constructor
  · exact (C2_amended envStd (60 * second) teAlive connAlive).1 (by decide)
  · exact (C2_amended envStd (60 * second) teOk connStd4).2 (by decide) (by decide)

end TunTun
